import Mathlib

/-!
Shallow embedding of the jtorch staged tensor execution engine
(src/src/jtorch/linear.cpp, src/src/jtorch/spatial_divisive_normalization.cpp
and the stage headers), with theorems settling the frozen claims about it.

Machine floats are modelled as exact rationals; `sqrtf` is passed in as an
abstract function parameter wherever the source calls it, so statements hold
for the actual float square root as well as any other realisation.
-/

namespace JTorch

/-- The jcl `Int3` shape triple: extents of the up-to-3 dimensions, with
trailing extents padded to 1 for lower-dimensional tensors. -/

structure Dim3 where
  d0 : Nat
  d1 : Nat
  d2 : Nat
deriving DecidableEq

/-- Modelled from the spec: `Tensor<float>` (its implementation file is not in
src/). Per spec section 3, a Tensor is a device buffer allocated exactly once
at construction, with immutable extents; `id` models the identity of that
device buffer (two Tensors with equal contents but separate allocations have
different ids), `nd` the dimensionality, `dim` the `Int3` extents and `data`
the buffer contents. -/

structure Ten where
  id : Nat
  nd : Nat
  dim : Dim3
  data : List ℚ
deriving DecidableEq

/-- Modelled from the spec: `Tensor<float>::clone` returns a new Tensor with
identical shape and an independent device buffer holding a copy of the
contents; `freshId` is the new buffer's identity. -/

def Ten.clone (t : Ten) (freshId : Nat) : Ten :=
  { t with id := freshId }

/-- Device limits a Stage queries from the dispatcher when partitioning work:
`getMaxWorkitemSize(deviceid, 1)`, `queryMaxWorkgroupSizeForCurKernel` and
`getMaxWorkgroupSize` of src/src/jtorch/linear.cpp lines 117-132. -/

structure DevCfg where
  maxItem1 : Nat
  kernelMaxWG : Nat
  deviceMaxWG : Nat

/-- linear.cpp lines 127-128: the column-parallelism factor
`p = min(16, min(max_item_size[1], max_worksize))`. -/

def pFactor (c : DevCfg) : Nat :=
  min 16 (min c.maxItem1 c.kernelMaxWG)

/-- linear.cpp lines 134-138: the shrink loop on `local_size[0]`, run
while `(n_outputs_ % local_size[0] != 0 || local_size[0] * local_size[1] >
max_worksize) && local_size[0] > 1`. Written by structural descent on the
loop variable: at 0 or 1 the `local_size[0] > 1` conjunct is false and the
loop exits at once (the C++ evaluates `n % 0` first when the variable is 0,
which is undefined behaviour there; the loop still exits with 0 whatever
that comparison yields, which is what this totalisation returns). -/

def shrinkRow (n maxWS l1 : Nat) : Nat → Nat
  | 0 => 0
  | 1 => 1
  | l0 + 2 =>
    if n % (l0 + 2) ≠ 0 ∨ maxWS < (l0 + 2) * l1 then
      shrinkRow n maxWS l1 (l0 + 1)
    else
      l0 + 2

/-- linear.cpp lines 127-138: the whole local work-group size computation of
the threaded matrix-vector path: `(local_size[0], local_size[1])`. -/

def localSize (c : DevCfg) (n : Nat) : Nat × Nat :=
  let p := pFactor c
  let start := min (n / p + 1) (c.deviceMaxWG / p)
  (shrinkRow n c.kernelMaxWG p start, p)

/-- Modelled from the spec: the work-partition heuristic exactly as spec
section 4.2 words it — `p = min(16, deviceMaxWorkitemSize[1],
deviceMaxWorkgroupSizeForKernel)`; row factor starts at
`min(outputRows / p + 1, deviceMaxWorkgroupSize / p)` and is decremented by 1
while it does not evenly divide the output row count or the row-by-column
product exceeds the kernel's max work-group size, stopping when it reaches
1. Stated separately from `shrinkRow` so the source computation can be proved
to refine the spec's words. -/

def specRowFactor (outputRows kernelMax p : Nat) : Nat → Nat
  | 0 => 0
  | 1 => 1
  | l0 + 2 =>
    if ¬ (l0 + 2) ∣ outputRows ∨ kernelMax < (l0 + 2) * p then
      specRowFactor outputRows kernelMax p (l0 + 1)
    else
      l0 + 2

/-- Modelled from the spec: the full partition `(rowFactor, p)` in the spec's
words (spec section 4.2). -/

def specPartition (maxItem1 kernelMax deviceMax outputRows : Nat) : Nat × Nat :=
  let p := min 16 (min maxItem1 kernelMax)
  (specRowFactor outputRows kernelMax p (min (outputRows / p + 1) (deviceMax / p)), p)

/-- Modelled from the spec: the legality check `launch` applies to a supplied
local size (spec section 4.2): each local dimension must evenly divide the
corresponding global dimension and the local product must not exceed the
kernel's reported max work-group size, else `InvalidWorkSizeError`. The
launch implementation itself is not in src/. -/

def launchLegal (kernelMax : Nat) (globalSz localSz : Nat × Nat) : Prop :=
  localSz.1 ∣ globalSz.1 ∧ localSz.2 ∣ globalSz.2 ∧
    localSz.1 * localSz.2 ≤ kernelMax

instance (kernelMax : Nat) (g l : Nat × Nat) : Decidable (launchLegal kernelMax g l) := by
  unfold launchLegal
  infer_instance

/-! ## Linear (src/src/jtorch/linear.cpp) -/

/-- `Linear`'s state: linear.cpp lines 74-86. `output` is the base-class
`TorchStage` output pointer (nullable, hence `Option`); the constructor
resets it to a freshly allocated 1-D tensor of length `n_outputs_`. The
weight tensor is 2-D of extents `{n_outputs_, n_inputs_}` (the weight matrix
is stored transposed / column-major). -/

structure Linear where
  n_inputs_ : Nat
  n_outputs_ : Nat
  output : Option Ten
  weights_ : Ten
  biases_ : Ten

/-- `Linear::Linear(n_inputs, n_outputs)` (linear.cpp lines 74-86): allocates
the output (1-D, length `n_outputs_`), the transposed weight tensor and the
bias tensor; `ctr` supplies fresh buffer identities, returned bumped. -/

def Linear.construct (n_inputs n_outputs ctr : Nat) : Linear × Nat :=
  ({ n_inputs_ := n_inputs
     n_outputs_ := n_outputs
     output := some ⟨ctr, 1, ⟨n_outputs, 1, 1⟩, List.replicate n_outputs 0⟩
     weights_ := ⟨ctr + 1, 2, ⟨n_outputs, n_inputs, 1⟩,
       List.replicate (n_outputs * n_inputs) 0⟩
     biases_ := ⟨ctr + 2, 1, ⟨n_outputs, 1, 1⟩, List.replicate n_outputs 0⟩ },
   ctr + 3)

/-- Helper for stating expected post-states: the same stage with the output
buffer's contents replaced (buffer identity and shape untouched). -/

def Linear.withOutputData (d : List ℚ) (l : Linear) : Linear :=
  { l with output := l.output.map fun out => { out with data := d } }

/-- `Linear::init` (linear.cpp lines 94-101): asserts the input is a 1-D
tensor of length `n_inputs_`; allocates nothing. -/

def Linear.init (input : Ten) (l : Linear) : Bool :=
  input.nd = 1 && input.dim.d0 == l.n_inputs_

/-- The per-work-item strided accumulation of the `MatVecMultThreads` kernel
(linear.cpp lines 41-45): work item `(i, jj)` sums `A[i + M * k] * X[k]`
over `k = jj, jj + p, jj + 2p, ...` below `N`, i.e. over the `k < N`
congruent to `jj` modulo the column count `p = get_global_size(COL_DIM)`. -/

def stridedSum (A X : Nat → ℚ) (M N p i jj : Nat) : ℚ :=
  ∑ k ∈ Finset.range N, if k % p = jj then A (i + M * k) * X k else 0

/-- The in-group reduction of `MatVecMultThreads` (linear.cpp lines 53-60):
`while (cols > 1) { cols >>= 1; if (jj < cols) work[jj] += work[jj + cols]; }`
for one row of the work array. The loop halves `cols` every pass, so running
it on fuel `cols` (as `halvingReduce` does) always reaches the exit
condition first. -/

def halvingLoop : (Nat → ℚ) → Nat → Nat → Nat → ℚ
  | f, _, 0 => f
  | f, cols, fuel + 1 =>
    if 1 < cols then
      halvingLoop (fun j => if j < cols / 2 then f j + f (j + cols / 2) else f j)
        (cols / 2) fuel
    else f

/-- The value `work[ii]` the kernel finally writes to `Y[get_global_id(0)]`
(linear.cpp lines 62-64): the reduction run to completion, read at local
column 0. -/

def halvingReduce (f : Nat → ℚ) (cols : Nat) : ℚ :=
  halvingLoop f cols cols 0

/-- `Linear::forwardProp` (linear.cpp lines 103-159), threaded path: `init`'s
assertions, the work partition of lines 127-138, the `MatVecMultThreads`
launch over global size `(n_outputs_, p)`, then the `Accum` launch adding
the biases. Fails (`none`) only if an assertion trips or the output pointer
is null. -/

def Linear.forwardProp (c : DevCfg) (input : Ten) (l : Linear) : Option Linear :=
  if l.init input then
    l.output.map fun out =>
      let p := pFactor c
      let A := fun idx => l.weights_.data.getD idx 0
      let X := fun k => input.data.getD k 0
      let b := fun i => l.biases_.data.getD i 0
      let y := (List.range l.n_outputs_).map fun i =>
        halvingReduce (fun jj => stridedSum A X l.n_outputs_ l.n_inputs_ p i jj) p
          + b i
      { l with output := some { out with data := y } }
  else none

/-! ## Model-file loading (linear.cpp lines 161-179) -/

/-- Modelled from the spec: the error taxonomy's `InvalidKernelShapeError`
(spec section 7); the source raises it as a `std::runtime_error` with an
"Averaging kernel must be odd size!" message. -/

inductive StageError where
  | InvalidKernelShapeError

/-- `SpatialDivisiveNormalization`'s owned state
(spatial_divisive_normalization.cpp lines 19-37): raw pointers, hence
`Option`; `ctr` models the allocator supplying fresh device-buffer
identities. -/

structure SpatialDivisiveNormalization where
  threshold_ : ℚ
  kernel_ : Option Ten
  kernel_norm_ : Option Ten
  output : Option Ten
  std_coef_ : Option Ten
  std_pass1_ : Option Ten
  std_pass2_ : Option Ten
  std_ : Option Ten
  ctr : Nat

/-- A default (all-null) state, used only as the `Option.getD` fallback when
stating concrete corollaries. -/

def sdnDefault : SpatialDivisiveNormalization :=
  ⟨0, none, none, none, none, none, none, none, 0⟩

/-- The constructor (spatial_divisive_normalization.cpp lines 19-37): throws
unless both spatial extents of the averaging kernel are odd and its channel
depth is 1; on success clones the kernel and leaves every other tensor
null. -/

def SpatialDivisiveNormalization.construct (kernel : Ten) (threshold : ℚ)
    (ctr : Nat) : Except StageError SpatialDivisiveNormalization :=
  if kernel.dim.d0 % 2 = 0 ∨ kernel.dim.d1 % 2 = 0 ∨ kernel.dim.d2 ≠ 1 then
    .error .InvalidKernelShapeError
  else
    .ok { threshold_ := threshold
          kernel_ := some (kernel.clone ctr)
          kernel_norm_ := none
          output := none
          std_coef_ := none
          std_pass1_ := none
          std_pass2_ := none
          std_ := none
          ctr := ctr + 1 }

/-- `init`'s shape-change teardown (lines 55-66): when the output exists and
its `Int3` dimensions differ from the input's, every owned tensor is
`SAFE_DELETE`d — the output, the three shape-dependent scratch tensors, the
coefficient cache, the normalized kernel, and also `kernel_` itself, the
cloned constructor kernel. -/

def SpatialDivisiveNormalization.teardownOnShapeChange (inDim : Dim3)
    (s : SpatialDivisiveNormalization) : SpatialDivisiveNormalization :=
  match s.output with
  | some o =>
    if o.dim ≠ inDim then
      { s with
        output := none
        kernel_ := none
        kernel_norm_ := none
        std_coef_ := none
        std_pass1_ := none
        std_pass2_ := none
        std_ := none }
    else s
  | none => s

/-- `init`'s output allocation (lines 67-74): when the output is null,
allocate it and the two filter-pass scratch tensors at the input's
dimensions (zero-initialized device buffers). -/

def SpatialDivisiveNormalization.allocOutput (inDim : Dim3)
    (s : SpatialDivisiveNormalization) : SpatialDivisiveNormalization :=
  if s.output = none then
    { s with
      output := some ⟨s.ctr, 3, inDim,
        List.replicate (inDim.d0 * inDim.d1 * inDim.d2) 0⟩
      std_pass1_ := some ⟨s.ctr + 1, 3, inDim,
        List.replicate (inDim.d0 * inDim.d1 * inDim.d2) 0⟩
      std_pass2_ := some ⟨s.ctr + 2, 3, inDim,
        List.replicate (inDim.d0 * inDim.d1 * inDim.d2) 0⟩
      ctr := s.ctr + 3 }
  else s

/-- `init`'s kernel normalization (lines 75-84): when `kernel_norm_` is
null, clone `kernel_` and divide it by `sum * sqrtf(n_feats)` for a 1-D
kernel, `sum * n_feats` for a 2-D one, where `n_feats` is the input's
channel count `in.dim()[2]` and `sum` the kernel's element sum. Line 76
dereferences `kernel_`, so a null `kernel_` is a crash (`none`). -/

def SpatialDivisiveNormalization.computeKernelNorm (sqrtf : ℚ → ℚ)
    (inDim : Dim3) (s : SpatialDivisiveNormalization) :
    Option SpatialDivisiveNormalization :=
  if s.kernel_norm_ = none then
    match s.kernel_ with
    | none => none
    | some k =>
      let n_feats : ℚ := (inDim.d2 : ℚ)
      let sum := k.data.sum
      let div_val := if k.dim.d1 = 1 then sum * sqrtf n_feats else sum * n_feats
      some { s with
        kernel_norm_ := some ⟨s.ctr, k.nd, k.dim, k.data.map fun a => a / div_val⟩
        ctr := s.ctr + 1 }
  else some s

/-- Signed in-bounds test for the clamped convolution (`u_in >= 0 && u_in <
width`, lines 113 and 137). -/

def inBounds (x : Int) (bound : Nat) : Prop :=
  0 ≤ x ∧ x < (bound : Int)

instance (x : Int) (b : Nat) : Decidable (inBounds x b) := by
  unfold inBounds
  infer_instance

/-- One coefficient of the 1-D (separable) normalization map (lines
101-123): the normalized kernel's outer product, convolved over an all-ones
image with zero clamping outside, divided by the feature count. `vf`/`uf`
run over `0 .. kernelSize-1`, standing for the C++ filter offsets shifted
by `filt_rad`. -/

def coef1D (kn : List ℚ) (kernelSize w h : Nat) (nf : ℚ) (u v : Nat) : ℚ :=
  let r : Int := ((kernelSize : Int) - 1) / 2
  (∑ vf ∈ Finset.range kernelSize, ∑ uf ∈ Finset.range kernelSize,
    if inBounds ((u : Int) + uf - r) w ∧ inBounds ((v : Int) + vf - r) h then
      kn.getD vf 0 * kn.getD uf 0
    else 0) / nf

/-- One coefficient of the full 2-D normalization map (lines 124-147). -/

def coef2D (kn : List ℚ) (ku kv w h : Nat) (nf : ℚ) (u v : Nat) : ℚ :=
  let ru : Int := ((ku : Int) - 1) / 2
  let rv : Int := ((kv : Int) - 1) / 2
  (∑ vf ∈ Finset.range kv, ∑ uf ∈ Finset.range ku,
    if inBounds ((u : Int) + uf - ru) w ∧ inBounds ((v : Int) + vf - rv) h then
      kn.getD (vf * ku + uf) 0
    else 0) / nf

/-- `init`'s coefficient-cache precomputation (lines 85-151): when
`std_coef_` is null, allocate the 2-D cache at the output's width and height
and fill it with the host-side convolution of an all-ones image. Lines 86,
92 and 93 dereference `output`, `kernel_norm_` and `kernel_`, so any of
them null is a crash. The row-major layout `std_coef_cpu[v * width + u]`
is kept. -/

def SpatialDivisiveNormalization.computeStdCoef
    (s : SpatialDivisiveNormalization) : Option SpatialDivisiveNormalization :=
  if s.std_coef_ = none then
    match s.output, s.kernel_, s.kernel_norm_ with
    | some out, some k, some kn =>
      let w := out.dim.d0
      let h := out.dim.d1
      let nf : ℚ := (out.dim.d2 : ℚ)
      let coefData := (List.range (w * h)).map fun idx =>
        if k.dim.d1 = 1 then coef1D kn.data kn.dim.d0 w h nf (idx % w) (idx / w)
        else coef2D kn.data kn.dim.d0 kn.dim.d1 w h nf (idx % w) (idx / w)
      some { s with
        std_coef_ := some ⟨s.ctr, 3, ⟨w, h, 1⟩, coefData⟩
        ctr := s.ctr + 1 }
    | _, _, _ => none
  else some s

/-- `init`'s final allocation (lines 152-159): when `std_` is null,
allocate the 2-D per-pixel accumulator at the output's width and height
(line 153 dereferences `output`). -/

def SpatialDivisiveNormalization.allocStd (s : SpatialDivisiveNormalization) :
    Option SpatialDivisiveNormalization :=
  if s.std_ = none then
    match s.output with
    | some out =>
      some { s with
        std_ := some ⟨s.ctr, 3, ⟨out.dim.d0, out.dim.d1, 1⟩,
          List.replicate (out.dim.d0 * out.dim.d1) 0⟩
        ctr := s.ctr + 1 }
    | none => none
  else some s

/-- `SpatialDivisiveNormalization::init` (lines 49-160): the four phases in
source order. The input-type check of line 50 is discharged by the model's
types (the input is a Tensor). -/

def SpatialDivisiveNormalization.init (sqrtf : ℚ → ℚ) (inDim : Dim3)
    (s : SpatialDivisiveNormalization) : Option SpatialDivisiveNormalization :=
  (((s.teardownOnShapeChange inDim).allocOutput inDim
      |>.computeKernelNorm sqrtf inDim).bind
    SpatialDivisiveNormalization.computeStdCoef).bind
    SpatialDivisiveNormalization.allocStd

/-- `SpatialDivisiveNormalization::forwardProp` (lines 162-217): `init`,
then four or five kernel launches. Line 164 dereferences `kernel_` again.
The launches' numeric effect lives in
`kernels/spatial_divisive_normalization.cl`, a source file not in the
repository's files here, so the model tracks what forwardProp does to the
stage's owned allocation state (the launches reallocate nothing). -/

def SpatialDivisiveNormalization.forwardProp (sqrtf : ℚ → ℚ) (input : Ten)
    (s : SpatialDivisiveNormalization) : Option SpatialDivisiveNormalization :=
  (s.init sqrtf input.dim).bind fun s1 =>
    match s1.kernel_ with
    | none => none
    | some _ => some s1

lemma shrinkRow_eq_specRowFactor (n maxWS l1 l0 : Nat) :
    shrinkRow n maxWS l1 l0 = specRowFactor n maxWS l1 l0 := by
  induction l0 using Nat.strong_induction_on with
  | _ l0 ih =>
    match l0 with
    | 0 => rfl
    | 1 => rfl
    | l0 + 2 =>
      have hd : (l0 + 2) ∣ n ↔ n % (l0 + 2) = 0 := Nat.dvd_iff_mod_eq_zero
      rw [shrinkRow, specRowFactor]
      by_cases h2 : n % (l0 + 2) ≠ 0 ∨ maxWS < (l0 + 2) * l1
      · rw [if_pos h2, if_pos (by tauto)]
        exact ih (l0 + 1) (by omega)
      · rw [if_neg h2, if_neg (by tauto)]

/-- The result of the shrink loop, started at a positive value, is positive,
divides the row count, and keeps the work-group product within the kernel
maximum provided the column factor alone fits. -/
lemma shrinkRow_legal (n maxWS l1 l0 : Nat) (hl0 : 1 ≤ l0) (hl1 : l1 ≤ maxWS) :
    1 ≤ shrinkRow n maxWS l1 l0 ∧
      shrinkRow n maxWS l1 l0 ∣ n ∧
      shrinkRow n maxWS l1 l0 * l1 ≤ maxWS := by
  induction l0 using Nat.strong_induction_on with
  | _ l0 ih =>
    match l0 with
    | 0 => omega
    | 1 => exact ⟨le_refl 1, Nat.one_dvd n, by simpa [shrinkRow] using hl1⟩
    | l0 + 2 =>
      rw [shrinkRow]
      by_cases h : n % (l0 + 2) ≠ 0 ∨ maxWS < (l0 + 2) * l1
      · rw [if_pos h]
        exact ih (l0 + 1) (by omega) (by omega)
      · rw [if_neg h]
        push_neg at h
        exact ⟨by omega, Nat.dvd_of_mod_eq_zero h.1, h.2⟩

/-- C5: Linear's threaded matrix-vector forward path computes its work
partition by exactly the specified heuristic: the column factor is
`p = min(16, deviceMaxWorkitemSize[1], deviceMaxWorkgroupSizeForKernel)`;
the row factor starts at
`min(outputRows / p + 1, deviceMaxWorkgroupSize / p)` and is decremented by
1 while it does not evenly divide the output row count or the row-by-column
product exceeds the kernel's max work-group size, stopping when it
reaches 1. -/
theorem linear_partition_matches_spec_heuristic (c : DevCfg) (n : Nat) :
    localSize c n = specPartition c.maxItem1 c.kernelMaxWG c.deviceMaxWG n := by
  simp only [localSize, specPartition, pFactor, shrinkRow_eq_specRowFactor]

/-- C6 counterexample: with output rows 1, `maxWorkitemSize[1] = 16`, kernel
max work-group size 16 and device max work-group size 1 (all at least 1, so
a legal configuration in the claim's sense), the heuristic computes
`local_size[0] = min(1/16 + 1, 1/16) = 0`, which does not divide the global
row count, so the local size handed to launch is illegal and the
`InvalidWorkSizeError` branch is reachable. -/
theorem linear_partition_illegal_size_exists :
    ¬ launchLegal (DevCfg.mk 16 16 1).kernelMaxWG
        (1, pFactor (DevCfg.mk 16 16 1)) (localSize (DevCfg.mk 16 16 1) 1) := by
  decide

/-- C6 amended: for every number of output rows at least 1 and every device
configuration with `maxWorkitemSize[1]` and both work-group maxima at least
1 in which the kernel's reported max work-group size does not exceed the
device's (the guarantee every OpenCL device gives), the shrink loop
terminates with a legal local size: each local dimension evenly divides the
corresponding global dimension and the local product is within the kernel's
reported max work-group size, so launch's `InvalidWorkSizeError` branch is
not reachable from `Linear::forwardProp`. -/
theorem linear_partition_legal (c : DevCfg) (n : Nat)
    (hn : 1 ≤ n) (hitem : 1 ≤ c.maxItem1) (hk : 1 ≤ c.kernelMaxWG)
    (hkd : c.kernelMaxWG ≤ c.deviceMaxWG) :
    launchLegal c.kernelMaxWG (n, pFactor c) (localSize c n) := by
  have hp1 : 1 ≤ pFactor c := by
    simp only [pFactor]
    omega
  have hpk : pFactor c ≤ c.kernelMaxWG := by
    simp only [pFactor]
    omega
  have hstart : 1 ≤ min (n / pFactor c + 1) (c.deviceMaxWG / pFactor c) := by
    have : 1 ≤ c.deviceMaxWG / pFactor c :=
      (Nat.one_le_div_iff (by omega)).2 (le_trans hpk hkd)
    exact le_min (Nat.succ_le_succ (Nat.zero_le _)) this
  obtain ⟨h1, h2, h3⟩ :=
    shrinkRow_legal n c.kernelMaxWG (pFactor c)
      (min (n / pFactor c + 1) (c.deviceMaxWG / pFactor c)) hstart hpk
  exact ⟨h2, dvd_refl _, h3⟩

/-- C6 witness: the amended legality theorem applied at a concrete
configuration (rows 7, all limits 64). -/
theorem linear_partition_legal_witness :
    launchLegal (DevCfg.mk 64 64 64).kernelMaxWG
      (7, pFactor (DevCfg.mk 64 64 64)) (localSize (DevCfg.mk 64 64 64) 7) :=
  linear_partition_legal (DevCfg.mk 64 64 64) 7 (by decide) (by decide)
    (by decide) (by decide)

/-- C9: Linear allocates its output exactly once, at construction, as a 1-D
zero-initialized tensor of fixed length `n_outputs`; and `forwardProp` never
reallocates, resizes or replaces it — any successful forward call leaves the
output's buffer identity, dimensionality and extents unchanged (only the
contents change), so the buffer identity is constant over the stage's whole
lifetime. -/
theorem linear_output_allocated_once
    (ni no ctr : Nat) (c : DevCfg) (x : Ten) (l l' : Linear)
    (h : l.forwardProp c x = some l') :
    (Linear.construct ni no ctr).1.output
        = some ⟨ctr, 1, ⟨no, 1, 1⟩, List.replicate no 0⟩ ∧
      Option.map Ten.id l'.output = Option.map Ten.id l.output ∧
      Option.map Ten.nd l'.output = Option.map Ten.nd l.output ∧
      Option.map Ten.dim l'.output = Option.map Ten.dim l.output := by
  refine ⟨rfl, ?_⟩
  unfold Linear.forwardProp at h
  split at h
  case isFalse => exact absurd h (by simp)
  case isTrue hinit =>
    match hout : l.output with
    | none =>
      rw [hout] at h
      exact absurd h (by simp)
    | some out =>
      rw [hout] at h
      simp only [Option.map_some', Option.some.injEq] at h
      subst h
      exact ⟨rfl, rfl, rfl⟩

lemma teardown_of_same_dim (D : Dim3) (s : SpatialDivisiveNormalization)
    (o : Ten) (ho : s.output = some o) (hd : o.dim = D) :
    s.teardownOnShapeChange D = s := by
  unfold SpatialDivisiveNormalization.teardownOnShapeChange
  rw [ho]
  simp [hd]

lemma allocOutput_of_some (D : Dim3) (s : SpatialDivisiveNormalization)
    (h : s.output ≠ none) : s.allocOutput D = s := by
  unfold SpatialDivisiveNormalization.allocOutput
  simp [h]

lemma computeKernelNorm_of_some (sqrtf : ℚ → ℚ) (D : Dim3)
    (s : SpatialDivisiveNormalization) (h : s.kernel_norm_ ≠ none) :
    s.computeKernelNorm sqrtf D = some s := by
  unfold SpatialDivisiveNormalization.computeKernelNorm
  simp [h]

lemma computeStdCoef_of_some (s : SpatialDivisiveNormalization)
    (h : s.std_coef_ ≠ none) : s.computeStdCoef = some s := by
  unfold SpatialDivisiveNormalization.computeStdCoef
  simp [h]

lemma allocStd_of_some (s : SpatialDivisiveNormalization)
    (h : s.std_ ≠ none) : s.allocStd = some s := by
  unfold SpatialDivisiveNormalization.allocStd
  simp [h]

/-- After teardown and output allocation, the output exists and carries the
input's dimensions. -/
lemma teardown_alloc_output (D : Dim3) (s : SpatialDivisiveNormalization) :
    ∃ o, ((s.teardownOnShapeChange D).allocOutput D).output = some o ∧
      o.dim = D := by
  unfold SpatialDivisiveNormalization.teardownOnShapeChange
    SpatialDivisiveNormalization.allocOutput
  match ho : s.output with
  | none => simp [ho]
  | some o =>
    by_cases hd : o.dim ≠ D
    · simp [ho, hd]
    · push_neg at hd
      simp [ho, hd]

lemma computeKernelNorm_fields (sqrtf : ℚ → ℚ) (D : Dim3)
    (s s' : SpatialDivisiveNormalization)
    (h : s.computeKernelNorm sqrtf D = some s') :
    s'.kernel_norm_ ≠ none ∧ s'.output = s.output ∧ s'.kernel_ = s.kernel_ ∧
      s'.std_coef_ = s.std_coef_ ∧ s'.std_ = s.std_ := by
  unfold SpatialDivisiveNormalization.computeKernelNorm at h
  by_cases hn : s.kernel_norm_ = none
  · rw [if_pos hn] at h
    match hk : s.kernel_ with
    | none =>
      rw [hk] at h
      exact absurd h (by simp)
    | some k =>
      rw [hk] at h
      simp only [Option.some.injEq] at h
      subst h
      simp [hk]
  · rw [if_neg hn] at h
    simp only [Option.some.injEq] at h
    subst h
    exact ⟨hn, rfl, rfl, rfl, rfl⟩

lemma computeStdCoef_fields (s s' : SpatialDivisiveNormalization)
    (h : s.computeStdCoef = some s') :
    s'.std_coef_ ≠ none ∧ s'.output = s.output ∧ s'.kernel_ = s.kernel_ ∧
      s'.kernel_norm_ = s.kernel_norm_ ∧ s'.std_ = s.std_ := by
  unfold SpatialDivisiveNormalization.computeStdCoef at h
  by_cases hn : s.std_coef_ = none
  · rw [if_pos hn] at h
    match ho : s.output, hk : s.kernel_, hkn : s.kernel_norm_ with
    | some out, some k, some kn =>
      rw [ho, hk, hkn] at h
      simp only [Option.some.injEq] at h
      subst h
      simp [ho, hk, hkn]
    | none, _, _ =>
      rw [ho] at h
      exact absurd h (by simp)
    | some _, none, _ =>
      rw [ho, hk] at h
      exact absurd h (by simp)
    | some _, some _, none =>
      rw [ho, hk, hkn] at h
      exact absurd h (by simp)
  · rw [if_neg hn] at h
    simp only [Option.some.injEq] at h
    subst h
    exact ⟨hn, rfl, rfl, rfl, rfl⟩

lemma allocStd_fields (s s' : SpatialDivisiveNormalization)
    (h : s.allocStd = some s') :
    s'.std_ ≠ none ∧ s'.output = s.output ∧ s'.kernel_ = s.kernel_ ∧
      s'.kernel_norm_ = s.kernel_norm_ ∧ s'.std_coef_ = s.std_coef_ := by
  unfold SpatialDivisiveNormalization.allocStd at h
  by_cases hn : s.std_ = none
  · rw [if_pos hn] at h
    match ho : s.output with
    | none =>
      rw [ho] at h
      exact absurd h (by simp)
    | some out =>
      rw [ho] at h
      simp only [Option.some.injEq] at h
      subst h
      simp [ho]
  · rw [if_neg hn] at h
    simp only [Option.some.injEq] at h
    subst h
    exact ⟨hn, rfl, rfl, rfl, rfl⟩

/-- A successful `init` leaves the stage fully allocated at the input's
dimensions. -/
lemma init_post (sqrtf : ℚ → ℚ) (D : Dim3)
    (s s1 : SpatialDivisiveNormalization) (h : s.init sqrtf D = some s1) :
    (∃ o, s1.output = some o ∧ o.dim = D) ∧ s1.kernel_norm_ ≠ none ∧
      s1.std_coef_ ≠ none ∧ s1.std_ ≠ none := by
  unfold SpatialDivisiveNormalization.init at h
  obtain ⟨s4, h4, h5⟩ := Option.bind_eq_some.1 h
  obtain ⟨s3, h3, h4'⟩ := Option.bind_eq_some.1 h4
  obtain ⟨hkn3, hout3, -, hcoef3, hstd3⟩ :=
    computeKernelNorm_fields sqrtf D _ _ h3
  obtain ⟨hcoef4, hout4, -, hkn4, hstd4⟩ := computeStdCoef_fields _ _ h4'
  obtain ⟨hstd1, hout1, -, hkn1, hcoef1⟩ := allocStd_fields _ _ h5
  obtain ⟨o, ho, hod⟩ := teardown_alloc_output D s
  refine ⟨⟨o, ?_, hod⟩, ?_, ?_, hstd1⟩
  · rw [hout1, hout4, hout3, ho]
  · rw [hkn1, hkn4]
    exact hkn3
  · rw [hcoef1]
    exact hcoef4

/-- An allocated stage's `init` at the same dimensions is a no-op. -/
lemma init_of_allocated (sqrtf : ℚ → ℚ) (D : Dim3)
    (s : SpatialDivisiveNormalization) (o : Ten)
    (ho : s.output = some o) (hod : o.dim = D)
    (hkn : s.kernel_norm_ ≠ none) (hcoef : s.std_coef_ ≠ none)
    (hstd : s.std_ ≠ none) : s.init sqrtf D = some s := by
  unfold SpatialDivisiveNormalization.init
  rw [teardown_of_same_dim D s o ho hod,
    allocOutput_of_some D s (by simp [ho]),
    computeKernelNorm_of_some sqrtf D s hkn]
  rw [Option.some_bind, computeStdCoef_of_some s hcoef, Option.some_bind,
    allocStd_of_some s hstd]

/-- C8: constructing SpatialDivisiveNormalization(K, threshold) fails with
InvalidKernelShapeError if and only if K's first spatial extent is even, or
its second spatial extent is even, or its channel-depth extent is not 1;
equivalently it succeeds exactly when both spatial extents are odd and the
depth is 1. -/
theorem sdn_construct_iff_valid_kernel (k : Ten) (t : ℚ) (ctr : Nat) :
    (SpatialDivisiveNormalization.construct k t ctr).isOk = true ↔
      (k.dim.d0 % 2 = 1 ∧ k.dim.d1 % 2 = 1 ∧ k.dim.d2 = 1) := by
  unfold SpatialDivisiveNormalization.construct
  by_cases h : k.dim.d0 % 2 = 0 ∨ k.dim.d1 % 2 = 0 ∨ k.dim.d2 ≠ 1
  · rw [if_pos h]
    constructor
    · intro hc
      exact absurd hc (by simp [Except.isOk, Except.toBool])
    · intro hr
      omega
  · rw [if_neg h]
    constructor
    · intro _
      push_neg at h
      omega
    · intro _
      simp [Except.isOk, Except.toBool]

/-- C1: evaluated at the failing input. A 1-element 1-D averaging kernel
stage is built, forward runs at shape (1,1,1) and succeeds; forward at the
changed shape (2,1,1) then returns no state at all: the teardown of
spatial_divisive_normalization.cpp lines 55-66 also deletes `kernel_`, and
the rebuild at line 76 dereferences that null pointer, so the claimed
Allocated(S') state is never reached. -/
theorem sdn_shape_change_rebuild_crashes :
    ((SpatialDivisiveNormalization.construct
          (Ten.mk 0 1 (Dim3.mk 1 1 1) [1]) (1 / 100) 1).toOption.bind
        fun s0 => s0.forwardProp id
          (Ten.mk 90 3 (Dim3.mk 1 1 1) [1])).isSome = true ∧
      (((SpatialDivisiveNormalization.construct
            (Ten.mk 0 1 (Dim3.mk 1 1 1) [1]) (1 / 100) 1).toOption.bind
          fun s0 => s0.forwardProp id
            (Ten.mk 90 3 (Dim3.mk 1 1 1) [1])).bind
        fun s1 => s1.forwardProp id
          (Ten.mk 91 3 (Dim3.mk 2 1 1) [1, 1])) = none := by
  constructor
  · with_unfolding_all rfl
  · with_unfolding_all rfl

/-- C4: a second forward call with a tensor of the same shape as the first
(whatever its contents) leaves the stage's state exactly as it was: the
output tensor is not reallocated (same buffer identity — the state is
unchanged, ids included) and the parameter-derived auxiliary tensors (the
normalized kernel and the coefficient cache) are not recomputed, however
often forward is repeated at that shape. -/
theorem sdn_forward_same_shape_noop (sqrtf : ℚ → ℚ) (x y : Ten)
    (s s1 : SpatialDivisiveNormalization) (hdim : y.dim = x.dim)
    (h : s.forwardProp sqrtf x = some s1) :
    s1.forwardProp sqrtf y = some s1 := by
  unfold SpatialDivisiveNormalization.forwardProp at h ⊢
  obtain ⟨s1', hinit, hmatch⟩ := Option.bind_eq_some.1 h
  match hk : s1'.kernel_ with
  | none =>
    rw [hk] at hmatch
    exact absurd hmatch (by simp)
  | some k =>
    rw [hk] at hmatch
    simp only [Option.some.injEq] at hmatch
    subst hmatch
    obtain ⟨⟨o, ho, hod⟩, hkn, hcoef, hstd⟩ := init_post sqrtf x.dim s s1' hinit
    rw [hdim, init_of_allocated sqrtf x.dim s1' o ho hod hkn hcoef hstd,
      Option.some_bind, hk]

/-- C4 witness: the theorem applied at the concrete stage built from a
1-element ones kernel after one forward at shape (1,1,1); a second forward
with a different tensor of the same shape returns the state unchanged. -/
theorem sdn_forward_same_shape_noop_witness :
    (((SpatialDivisiveNormalization.construct
          (Ten.mk 0 1 (Dim3.mk 1 1 1) [1]) (1 / 100) 1).toOption.bind
        fun s0 => s0.forwardProp id
          (Ten.mk 90 3 (Dim3.mk 1 1 1) [1])).getD sdnDefault).forwardProp
        id (Ten.mk 91 3 (Dim3.mk 1 1 1) [2])
      = some (((SpatialDivisiveNormalization.construct
          (Ten.mk 0 1 (Dim3.mk 1 1 1) [1]) (1 / 100) 1).toOption.bind
        fun s0 => s0.forwardProp id
          (Ten.mk 90 3 (Dim3.mk 1 1 1) [1])).getD sdnDefault) :=
  sdn_forward_same_shape_noop id
    (Ten.mk 90 3 (Dim3.mk 1 1 1) [1])
    (Ten.mk 91 3 (Dim3.mk 1 1 1) [2])
    (((SpatialDivisiveNormalization.construct
        (Ten.mk 0 1 (Dim3.mk 1 1 1) [1]) (1 / 100) 1).toOption).getD
      sdnDefault)
    (((SpatialDivisiveNormalization.construct
          (Ten.mk 0 1 (Dim3.mk 1 1 1) [1]) (1 / 100) 1).toOption.bind
        fun s0 => s0.forwardProp id
          (Ten.mk 90 3 (Dim3.mk 1 1 1) [1])).getD sdnDefault)
    rfl (by with_unfolding_all rfl)

/-- C10: when `init` computes the normalized kernel (null `kernel_norm_`,
non-null stored kernel), the cached tensor keeps the kernel's shape and its
data is the constructor kernel divided elementwise by (element sum times
sqrtf of the input's channel count) when the kernel is 1-D (second extent
1), and by (element sum times the channel count) when it is 2-D. `sqrtf`
is the actual float square-root routine, passed in abstractly. -/
theorem sdn_kernel_norm_divisor (sqrtf : ℚ → ℚ) (D : Dim3)
    (s s1 : SpatialDivisiveNormalization) (k : Ten)
    (hk : s.kernel_ = some k) (hkn : s.kernel_norm_ = none)
    (h : s.init sqrtf D = some s1) :
    ∃ kn, s1.kernel_norm_ = some kn ∧ kn.dim = k.dim ∧
      kn.data = k.data.map fun a => a /
        (k.data.sum * (if k.dim.d1 = 1 then sqrtf (D.d2 : ℚ) else (D.d2 : ℚ))) := by
  unfold SpatialDivisiveNormalization.init at h
  obtain ⟨s4, h4, h5⟩ := Option.bind_eq_some.1 h
  obtain ⟨s3, h3, h4'⟩ := Option.bind_eq_some.1 h4
  obtain ⟨-, -, -, hkn4, -⟩ := computeStdCoef_fields _ _ h4'
  obtain ⟨-, -, -, hkn5, -⟩ := allocStd_fields _ _ h5
  -- the teardown cannot have fired: it would null `kernel_` and the
  -- normalization step would crash
  have hsame : s.teardownOnShapeChange D = s := by
    unfold SpatialDivisiveNormalization.teardownOnShapeChange
    match ho : s.output with
    | none => rfl
    | some o =>
      by_cases hd : o.dim ≠ D
      · exfalso
        rw [SpatialDivisiveNormalization.computeKernelNorm] at h3
        revert h3
        unfold SpatialDivisiveNormalization.teardownOnShapeChange
          SpatialDivisiveNormalization.allocOutput
        rw [ho]
        simp [hd]
      · simp [hd]
  rw [hsame] at h3
  have halloc : ((s.allocOutput D).kernel_ = some k) ∧
      ((s.allocOutput D).kernel_norm_ = none) ∧
      ((s.allocOutput D).ctr = s.ctr ∨ (s.allocOutput D).ctr = s.ctr + 3) := by
    unfold SpatialDivisiveNormalization.allocOutput
    split_ifs
    · exact ⟨hk, hkn, Or.inr rfl⟩
    · exact ⟨hk, hkn, Or.inl rfl⟩
  obtain ⟨hk2, hkn2, -⟩ := halloc
  unfold SpatialDivisiveNormalization.computeKernelNorm at h3
  rw [if_pos hkn2, hk2] at h3
  simp only [Option.some.injEq] at h3
  subst h3
  rw [hkn5, hkn4]
  refine ⟨_, rfl, rfl, ?_⟩
  by_cases h1 : k.dim.d1 = 1
  · simp [h1]
  · simp [h1]

/-- C10 witness: the theorem applied at the stage built from the 1-element
kernel [2] (sum 2, 1-D) and input shape (1,1,1) (one channel), with `sqrtf`
instantiated as the identity: the cached kernel is [1/2]. -/
theorem sdn_kernel_norm_divisor_witness :
    ∃ kn,
      (((((SpatialDivisiveNormalization.construct
              (Ten.mk 0 1 (Dim3.mk 1 1 1) [2]) (1 / 100) 1).toOption).getD
          sdnDefault).init id (Dim3.mk 1 1 1)).getD sdnDefault).kernel_norm_
          = some kn ∧
        kn.dim = (Ten.mk 1 1 (Dim3.mk 1 1 1) [2]).dim ∧
        kn.data = (Ten.mk 1 1 (Dim3.mk 1 1 1) [2]).data.map fun a => a /
          ((Ten.mk 1 1 (Dim3.mk 1 1 1) [2]).data.sum *
            (if (Ten.mk 1 1 (Dim3.mk 1 1 1) [2]).dim.d1 = 1 then
              id ((Dim3.mk 1 1 1).d2 : ℚ) else ((Dim3.mk 1 1 1).d2 : ℚ))) :=
  sdn_kernel_norm_divisor id (Dim3.mk 1 1 1)
    ((((SpatialDivisiveNormalization.construct
        (Ten.mk 0 1 (Dim3.mk 1 1 1) [2]) (1 / 100) 1).toOption).getD
      sdnDefault))
    (((((SpatialDivisiveNormalization.construct
          (Ten.mk 0 1 (Dim3.mk 1 1 1) [2]) (1 / 100) 1).toOption).getD
        sdnDefault).init id (Dim3.mk 1 1 1)).getD sdnDefault)
    (Ten.mk 1 1 (Dim3.mk 1 1 1) [2])
    (by with_unfolding_all rfl) (by with_unfolding_all rfl)
    (by with_unfolding_all rfl)

/-- C7 counterexample: Linear's output tensor is not null at construction —
the constructor itself allocates it (linear.cpp line 79), before any
forward call. -/
theorem linear_output_not_null_at_construction :
    (Linear.construct 2 3 0).1.output
      = some ⟨0, 1, ⟨3, 1, 1⟩, [0, 0, 0]⟩ := by
  with_unfolding_all rfl

/-- C7 amended: SpatialDivisiveNormalization's owned output tensor is null
from construction until the first forward call (its `init` allocates it
lazily), but Linear's is allocated eagerly by its constructor, so the
nullable-until-first-forward lifecycle does not hold for every Stage. -/
theorem output_allocation_at_construction (k : Ten) (t : ℚ)
    (ctr ni no ctr2 : Nat) (s : SpatialDivisiveNormalization)
    (h : SpatialDivisiveNormalization.construct k t ctr = .ok s) :
    s.output = none ∧ (Linear.construct ni no ctr2).1.output.isSome = true := by
  unfold SpatialDivisiveNormalization.construct at h
  by_cases hcond : k.dim.d0 % 2 = 0 ∨ k.dim.d1 % 2 = 0 ∨ k.dim.d2 ≠ 1
  · rw [if_pos hcond] at h
    exact absurd h (by simp)
  · rw [if_neg hcond] at h
    simp only [Except.ok.injEq] at h
    subst h
    exact ⟨rfl, rfl⟩

/-- C7 witness: the amended theorem at a concrete valid kernel and a
concrete Linear. -/
theorem output_allocation_at_construction_witness :
    ((SpatialDivisiveNormalization.construct
          (Ten.mk 0 1 (Dim3.mk 1 1 1) [1]) (1 / 2) 5).toOption.getD
        sdnDefault).output = none ∧
      (Linear.construct 1 1 0).1.output.isSome = true :=
  output_allocation_at_construction (Ten.mk 0 1 (Dim3.mk 1 1 1) [1])
    (1 / 2) 5 1 1 0
    ((SpatialDivisiveNormalization.construct
        (Ten.mk 0 1 (Dim3.mk 1 1 1) [1]) (1 / 2) 5).toOption.getD
      sdnDefault)
    (by with_unfolding_all rfl)

/-- C9 witness: the theorem applied at a concrete 1-input, 1-output stage
and a concrete successful forward call. -/
theorem linear_output_allocated_once_witness :
    (Linear.construct 2 3 0).1.output
        = some ⟨0, 1, ⟨3, 1, 1⟩, List.replicate 3 0⟩ ∧
      Option.map Ten.id ((Linear.construct 1 1 7).1.withOutputData [0]).output
          = Option.map Ten.id (Linear.construct 1 1 7).1.output ∧
      Option.map Ten.nd ((Linear.construct 1 1 7).1.withOutputData [0]).output
          = Option.map Ten.nd (Linear.construct 1 1 7).1.output ∧
      Option.map Ten.dim ((Linear.construct 1 1 7).1.withOutputData [0]).output
          = Option.map Ten.dim (Linear.construct 1 1 7).1.output :=
  linear_output_allocated_once 2 3 0 (DevCfg.mk 1 1 1)
    (Ten.mk 50 1 (Dim3.mk 1 1 1) [2]) (Linear.construct 1 1 7).1
    ((Linear.construct 1 1 7).1.withOutputData [0]) (by with_unfolding_all rfl)

end JTorch
